import Mathlib

/-!
Verification development for the KEN library app (src/app.py, Streamlit + SQLite).

The persistent state is a SQLite database with tables books, copies, members,
locations and transactions (see init_db in src/app.py).  Each table is modelled
as a list of rows in insertion order, together with the AUTOINCREMENT counter
that produces the next primary key.  Each mutating UI handler of the app is
translated into a pure state transformer on that model:

  * add_book                - the Add Book handler in page_books
  * add_copy                - the Add Copy handler in page_copies
  * issue                   - the Issue button handler in page_issue_return
  * mark_returned           - the Mark-returned handler in page_issue_return
  * add_location            - the Add Location handler in page_locations
  * ensure_default_locations- the Compartment 1..n seeding routine
  * import_books            - the CSV import of page_import_export

SQLite specifics that matter here: the UNIQUE constraints (locations.name and
the idx_books_title_author index) compare TEXT with the default BINARY
collation, i.e. case-sensitively; INSERT OR IGNORE silently drops a row that
violates such a constraint; DATE('now') is modelled by passing the current
date as an explicit string argument; foreign keys are enabled (get_conn sets
PRAGMA foreign_keys = ON), so an INSERT whose book_id does not resolve fails
and leaves the table unchanged.
-/

namespace KenLib

/-- A row of the books table (schema in init_db).  The columns tags and notes
exist in the schema but are never written by any handler and never read, so
they are omitted from the model. -/
structure Book where
  id : Nat
  title : String
  author : String
  genre : String
  default_location : String
  deriving Repr, DecidableEq

/-- A row of the copies table (schema in init_db).  The columns issued_to,
issue_date and due_date are created by the schema and displayed by
page_copies, but no handler ever writes them, so they stay NULL. -/
structure Copy where
  id : Nat
  book_id : Nat
  accession_no : String
  status : String
  current_location : String
  issued_to : Option String
  issue_date : Option String
  due_date : Option String
  deriving Repr, DecidableEq

/-- A row of the members table (schema in init_db). -/
structure Member where
  id : Nat
  name : String
  phone : String
  email : String
  deriving Repr, DecidableEq

/-- A row of the locations table (schema in init_db): name is UNIQUE under
SQLite's default BINARY collation, hence compared case-sensitively. -/
structure Location where
  id : Nat
  name : String
  description : String
  deriving Repr, DecidableEq

/-- A row of the transactions table (schema in init_db).  The app issues by
book, not by copy, so copy_id is kept only for older data and is never set by
the Issue handler. -/
structure Txn where
  id : Nat
  book_id : Nat
  member_id : Nat
  copy_id : Option Nat
  issue_date : String
  due_date : Option String
  return_date : Option String
  deriving Repr, DecidableEq

/-- The whole database: one list of rows per table, in insertion order, plus
the AUTOINCREMENT counter of each table.  books_unique_index records whether
the CSV import handler has already run CREATE UNIQUE INDEX IF NOT EXISTS
idx_books_title_author ON books(title, author): the index is persistent, and
once it exists every later INSERT into books is subject to it. -/
structure DB where
  books : List Book
  copies : List Copy
  members : List Member
  locations : List Location
  transactions : List Txn
  next_book_id : Nat
  next_copy_id : Nat
  next_member_id : Nat
  next_location_id : Nat
  next_txn_id : Nat
  books_unique_index : Bool
  deriving Repr, DecidableEq

/-- The state produced by init_db on a fresh file: every table empty, every
AUTOINCREMENT counter at 1, and the import's unique index on books not yet
created. -/
def init_db : DB :=
  { books := [], copies := [], members := [], locations := [], transactions := []
    next_book_id := 1, next_copy_id := 1, next_member_id := 1
    next_location_id := 1, next_txn_id := 1
    books_unique_index := false }

/-- Is a character one of the ASCII whitespace characters that Python's
str.strip removes by default (space, tab, newline, carriage return)? -/
def isStripChar (c : Char) : Bool :=
  c == ' ' || c == '\t' || c == '\n' || c == '\r'

/-- Python's str.strip as the handlers use it: leading and trailing
whitespace removed.  Defined structurally over the character list so that
the kernel can evaluate it on concrete inputs. -/
def strip (s : String) : String :=
  ⟨((s.data.dropWhile isStripChar).reverse.dropWhile isStripChar).reverse⟩

/-- Does a location row with exactly this name exist?  This is the test the
UNIQUE(name) constraint on locations performs (BINARY collation, so the
comparison is case-sensitive). -/
def location_name_exists (db : DB) (name : String) : Bool :=
  db.locations.any fun l => l.name == name

/-- INSERT OR IGNORE INTO locations(name, description): dropped silently when
a row with the exact same name exists, inserted otherwise. -/
def insert_or_ignore_location (db : DB) (name desc : String) : DB :=
  if location_name_exists db name then db
  else
    { db with
      locations := db.locations ++
        [{ id := db.next_location_id, name := name, description := desc }]
      next_location_id := db.next_location_id + 1 }

/-- The Add Location handler in page_locations: runs only when the stripped
name is non-blank, then INSERT OR IGNORE of the stripped name and
description. -/
def add_location (db : DB) (name desc : String) : DB :=
  if strip name = "" then db
  else insert_or_ignore_location db (strip name) (strip desc)

/-- The name of the i-th seeded slot in ensure_default_locations. -/
def compartment_name (i : Nat) : String := "Compartment " ++ toString i

/-- The description of the i-th seeded slot in ensure_default_locations. -/
def compartment_desc (i : Nat) : String := "Shelf compartment #" ++ toString i

/-- ensure_default_locations(n) in src/app.py: for i in 1..n, INSERT OR
IGNORE the row (Compartment i, Shelf compartment #i). -/
def ensure_default_locations (db : DB) (n : Nat) : DB :=
  (List.range n).foldl
    (fun d i => insert_or_ignore_location d (compartment_name (i + 1)) (compartment_desc (i + 1)))
    db

/-- Does a book row with exactly this (title, author) pair exist?  This is
the test performed by the UNIQUE INDEX idx_books_title_author that the
CSV import creates (BINARY collation, case-sensitive). -/
def book_title_author_exists (db : DB) (t a : String) : Bool :=
  db.books.any fun b => b.title == t && b.author == a

/-- The Add Book handler in page_books: runs only when the stripped title is
non-blank, then INSERT INTO books of the stripped title, author and genre
together with the selected default location.  The books table itself has no
uniqueness constraint, so before any CSV import the INSERT is unconditional;
but once an import has created the persistent UNIQUE INDEX
idx_books_title_author, an INSERT whose exact (title, author) pair already
exists raises an IntegrityError, the connection context manager rolls the
transaction back, and nothing is inserted. -/
def add_book (db : DB) (title author genre default_location : String) : DB :=
  if strip title = "" then db
  else if db.books_unique_index && book_title_author_exists db (strip title) (strip author) then
    db
  else
    { db with
      books := db.books ++
        [{ id := db.next_book_id, title := strip title, author := strip author
           genre := strip genre, default_location := default_location }]
      next_book_id := db.next_book_id + 1 }

/-- Does a book row with this id exist?  This is what the foreign key
book_id REFERENCES books(id) checks on INSERT into copies or
transactions. -/
def book_id_exists (db : DB) (book_id : Nat) : Bool :=
  db.books.any fun b => b.id == book_id

/-- The Add Copy handler in page_copies: inserts a copy with status
'available' under an existing book (the book comes from a select box over the
books table, and the foreign key enforces existence). -/
def add_copy (db : DB) (book_id : Nat) (acc loc : String) : DB :=
  if book_id_exists db book_id then
    { db with
      copies := db.copies ++
        [{ id := db.next_copy_id, book_id := book_id, accession_no := strip acc
           status := "available", current_location := loc
           issued_to := none, issue_date := none, due_date := none }]
      next_copy_id := db.next_copy_id + 1 }
  else db

/-- Modelled from the spec: the Members page is referenced by
page_issue_return (the members table and the hint to add members on the
Members page exist) but its handler is missing from src/app.py.  Per the
spec, a Member is created by explicit add, with name and contact fields and
no uniqueness constraint. -/
def add_member (db : DB) (name phone email : String) : DB :=
  { db with
    members := db.members ++
      [{ id := db.next_member_id, name := name, phone := phone, email := email }]
    next_member_id := db.next_member_id + 1 }

/-- The Issue button handler in page_issue_return: a single INSERT INTO
transactions(book_id, member_id, issue_date, due_date) VALUES (?, ?,
DATE('now'), ?).  There is no availability check of any kind; return_date is
left NULL; the only way the INSERT can fail is the foreign key on book_id. -/
def issue (db : DB) (book_id member_id : Nat) (due_date : Option String) (today : String) : DB :=
  if book_id_exists db book_id then
    { db with
      transactions := db.transactions ++
        [{ id := db.next_txn_id, book_id := book_id, member_id := member_id
           copy_id := none, issue_date := today, due_date := due_date
           return_date := none }]
      next_txn_id := db.next_txn_id + 1 }
  else db

/-- The Mark-returned handler in page_issue_return: UPDATE transactions SET
return_date = DATE('now') WHERE id = ?.  Unconditional: no existence check
and no check that the entry is still open. -/
def mark_returned (db : DB) (txn_id : Nat) (today : String) : DB :=
  { db with
    transactions := db.transactions.map fun t =>
      if t.id = txn_id then { t with return_date := some today } else t }

/-- One row of the CSV import in page_import_export: the four fields title,
author, genre, default_location are stripped, then INSERT OR IGNORE under the
(title, author) unique index (the import creates the index before its rows
run): silently dropped when the pair already exists, inserted otherwise.  The
model assumes the index creation itself succeeds, i.e. the books table holds
no duplicate (title, author) pair beforehand. -/
def import_row (db : DB) (row : String × String × String × String) : DB :=
  let t := strip row.1
  let a := strip row.2.1
  let g := strip row.2.2.1
  let l := strip row.2.2.2
  if book_title_author_exists db t a then db
  else
    { db with
      books := db.books ++
        [{ id := db.next_book_id, title := t, author := a, genre := g
           default_location := l }]
      next_book_id := db.next_book_id + 1 }

/-- The row loop of the CSV import: executemany of INSERT OR IGNORE over the
rows, in input order. -/
def import_rows (db : DB) (rows : List (String × String × String × String)) : DB :=
  rows.foldl import_row db

/-- The CSV import of page_import_export: first CREATE UNIQUE INDEX IF NOT
EXISTS idx_books_title_author ON books(title, author) - recorded in the
books_unique_index flag, since the index persists and constrains every later
INSERT into books - then the executemany of INSERT OR IGNORE over the rows
in input order. -/
def import_books (db : DB) (rows : List (String × String × String × String)) : DB :=
  import_rows { db with books_unique_index := true } rows

/-- The number of open (return_date IS NULL) transactions of a given book:
the subquery SELECT COUNT(*) FROM transactions t WHERE t.book_id = b.id AND
t.return_date IS NULL used by page_dashboard. -/
def open_count (db : DB) (book_id : Nat) : Nat :=
  (db.transactions.filter fun t => t.book_id == book_id && t.return_date.isNone).length

/-- One user interaction with a mutating handler of the app. -/
inductive Op where
  | addBook (title author genre default_location : String)
  | addCopy (book_id : Nat) (acc loc : String)
  | addMember (name phone email : String)
  | doIssue (book_id member_id : Nat) (due_date : Option String) (today : String)
  | doReturn (txn_id : Nat) (today : String)
  | addLoc (name desc : String)
  | seedLocations (n : Nat)
  | importCsv (rows : List (String × String × String × String))
  deriving Repr, DecidableEq

/-- Dispatch one interaction to its handler. -/
def step (db : DB) : Op → DB
  | .addBook t a g l => add_book db t a g l
  | .addCopy b acc loc => add_copy db b acc loc
  | .addMember n p e => add_member db n p e
  | .doIssue b m due d => issue db b m due d
  | .doReturn i d => mark_returned db i d
  | .addLoc n d => add_location db n d
  | .seedLocations n => ensure_default_locations db n
  | .importCsv rows => import_books db rows

/-- The state reached from a fresh database by a sequence of interactions.
The Compartment seeding that main() performs at startup is itself one of the
operations (seedLocations 45). -/
def run (ops : List Op) : DB := ops.foldl step init_db

/-- Every stored copy row carries status available: the invariant of claim
C10, stated over the copies table. -/
def copies_available (db : DB) : Bool :=
  db.copies.all fun c => c.status == "available"

/-- Interactions reaching a state in which the book Dune has two open
circulation entries at once (claim C1). -/
def C1_ops : List Op :=
  [.addBook "Dune" "Herbert" "SciFi" "", .addMember "Ada" "" "", .addMember "Bob" "" "",
   .doIssue 1 1 none "2024-01-01", .doIssue 1 2 none "2024-01-02"]

/-- Interactions reaching a state in which Dune already has one open
circulation entry (claims C1 and C4 witnesses build on it). -/
def C1_pre_ops : List Op :=
  [.addBook "Dune" "Herbert" "SciFi" "", .addMember "Ada" "" "",
   .doIssue 1 1 none "2024-01-01"]

/-- Interactions for claim C2: a book with one copy A1, a member, and one
successful Issue of that book. -/
def C2_ops : List Op :=
  [.addBook "Dune" "Herbert" "SciFi" "", .addCopy 1 "A1" "Compartment 3",
   .addMember "Ada" "" "", .doIssue 1 1 none "2024-01-01"]

/-- The state for the C2 witness: Dune, its copy A1 and member Ada, before
any Issue. -/
def C2_pre_ops : List Op :=
  [.addBook "Dune" "Herbert" "SciFi" "", .addCopy 1 "A1" "Compartment 3",
   .addMember "Ada" "" ""]

/-- Interactions for claim C3: two adds whose titles differ only in case. -/
def C3_ops : List Op :=
  [.addBook "Dune" "Herbert" "SciFi" "", .addBook "dune" "Herbert" "SciFi" ""]

/-- Interactions for claim C4: one issue of Dune, returned on 2024-02-01,
then returned again on 2024-03-01. -/
def C4_ops : List Op :=
  [.addBook "Dune" "Herbert" "SciFi" "", .addMember "Ada" "" "",
   .doIssue 1 1 none "2024-01-01", .doReturn 1 "2024-02-01", .doReturn 1 "2024-03-01"]

/-- The state for the C4 witness: one entry, already returned once. -/
def C4_pre_ops : List Op :=
  [.addBook "Dune" "Herbert" "SciFi" "", .addMember "Ada" "" "",
   .doIssue 1 1 none "2024-01-01", .doReturn 1 "2024-02-01"]

/-- Interactions for claim C5: a pre-existing lower-case slot, then the
seeding pass with n = 1. -/
def C5_ops : List Op := [.addLoc "compartment 1" "handmade", .seedLocations 1]

/-- Interactions for claim C6: Dune exists, then a CSV row for the same
title and author with new genre and location is imported. -/
def C6_ops : List Op :=
  [.addBook "Dune" "Herbert" "Classic" "Compartment 1",
   .importCsv [("Dune", "Herbert", "SciFi", "Compartment 9")]]

/-- The CSV row of the C6 witness. -/
def C6_row : String × String × String × String := ("Dune", "Herbert", "SciFi", "Compartment 9")

/-- The state of the C6 witness: Dune by Herbert already catalogued. -/
def C6_db : DB := run [.addBook "Dune" "Herbert" "Classic" "Compartment 1"]

/-- Interactions for claim C8: two location adds whose names differ only in
case. -/
def C8_ops : List Op := [.addLoc "Shelf A" "first", .addLoc "shelf a" "second"]

/-- The state of the C8 witness: one location Shelf A. -/
def C8_db : DB := run [.addLoc "Shelf A" "first"]

/-- A state in which the title Dune has two open circulation entries at
once (ids 1 and 2), for the C9 witness. -/
def C9_db : DB :=
  { books := [{ id := 1, title := "Dune", author := "Herbert", genre := "SciFi"
                default_location := "" }]
    copies := []
    members := [{ id := 1, name := "Ada", phone := "", email := "" },
                { id := 2, name := "Bob", phone := "", email := "" }]
    locations := []
    transactions :=
      [{ id := 1, book_id := 1, member_id := 1, copy_id := none
         issue_date := "2024-01-01", due_date := none, return_date := none },
       { id := 2, book_id := 1, member_id := 2, copy_id := none
         issue_date := "2024-01-02", due_date := none, return_date := none }]
    next_book_id := 2, next_copy_id := 1, next_member_id := 3
    next_location_id := 1, next_txn_id := 3
    books_unique_index := false }

/-- The state of the C3 witness: the CSV import has run (so the persistent
unique index on (title, author) exists) and Dune by Herbert is stored. -/
def C3_db : DB := run [.importCsv [("Dune", "Herbert", "SciFi", "Compartment 1")]]

/-! Helper lemmas about the location registry: what INSERT OR IGNORE under
the UNIQUE(name) constraint guarantees, and how the Compartment seeding
composes. -/

/-- After INSERT OR IGNORE of a name, that exact name exists. -/
theorem insert_or_ignore_location_self (db : DB) (nm d : String) :
    location_name_exists (insert_or_ignore_location db nm d) nm = true := by
  unfold insert_or_ignore_location
  split
  · assumption
  · simp [location_name_exists]

/-- INSERT OR IGNORE never removes an existing name. -/
theorem insert_or_ignore_location_mono (db : DB) (nm d x : String)
    (h : location_name_exists db x = true) :
    location_name_exists (insert_or_ignore_location db nm d) x = true := by
  unfold insert_or_ignore_location
  split
  · exact h
  · simp only [location_name_exists, List.any_append] at h ⊢
    simp [location_name_exists] at h
    simp [h]

/-- INSERT OR IGNORE of an already-present exact name changes nothing at
all. -/
theorem insert_or_ignore_location_of_exists (db : DB) (nm d : String)
    (h : location_name_exists db nm = true) :
    insert_or_ignore_location db nm d = db := by
  unfold insert_or_ignore_location
  simp [h]

/-- INSERT OR IGNORE preserves every existing location row. -/
theorem insert_or_ignore_location_mem (db : DB) (nm d : String) (l : Location)
    (h : l ∈ db.locations) : l ∈ (insert_or_ignore_location db nm d).locations := by
  unfold insert_or_ignore_location
  split
  · exact h
  · exact List.mem_append_left _ h

/-- INSERT OR IGNORE into locations leaves the copies table alone. -/
theorem insert_or_ignore_location_copies (db : DB) (nm d : String) :
    (insert_or_ignore_location db nm d).copies = db.copies := by
  unfold insert_or_ignore_location
  split <;> rfl

/-- Unrolling the seeding loop by one iteration. -/
theorem ensure_default_locations_succ (db : DB) (n : Nat) :
    ensure_default_locations db (n + 1) =
      insert_or_ignore_location (ensure_default_locations db n)
        (compartment_name (n + 1)) (compartment_desc (n + 1)) := by
  unfold ensure_default_locations
  rw [List.range_succ, List.foldl_append]
  rfl

/-- Seeding never removes an existing name. -/
theorem ensure_default_locations_mono (db : DB) (n : Nat) (x : String)
    (h : location_name_exists db x = true) :
    location_name_exists (ensure_default_locations db n) x = true := by
  induction n with
  | zero => simpa [ensure_default_locations] using h
  | succ n ih => rw [ensure_default_locations_succ]
                 exact insert_or_ignore_location_mono _ _ _ _ ih

/-- Seeding preserves every existing location row. -/
theorem ensure_default_locations_mem (db : DB) (n : Nat) (l : Location)
    (h : l ∈ db.locations) : l ∈ (ensure_default_locations db n).locations := by
  induction n with
  | zero => simpa [ensure_default_locations] using h
  | succ n ih => rw [ensure_default_locations_succ]
                 exact insert_or_ignore_location_mem _ _ _ _ ih

/-- Seeding leaves the copies table alone. -/
theorem ensure_default_locations_copies (db : DB) (n : Nat) :
    (ensure_default_locations db n).copies = db.copies := by
  induction n with
  | zero => rfl
  | succ n ih => rw [ensure_default_locations_succ, insert_or_ignore_location_copies, ih]

/-- After seeding up to n, every name Compartment i with 1 <= i <= n
exists. -/
theorem ensure_default_locations_names (db : DB) (i : Nat) (h1 : 1 ≤ i) :
    ∀ n, i ≤ n →
      location_name_exists (ensure_default_locations db n) (compartment_name i) = true := by
  intro n
  induction n with
  | zero => intro h; omega
  | succ n ih =>
    intro h
    rw [ensure_default_locations_succ]
    rcases Nat.lt_or_ge i (n + 1) with hlt | hge
    · exact insert_or_ignore_location_mono _ _ _ _ (ih (by omega))
    · have hi : i = n + 1 := by omega
      subst hi
      exact insert_or_ignore_location_self _ _ _


/-- A seeding pass over names that all already exist is the identity. -/
theorem seed_fold_noop (db : DB) :
    ∀ l : List Nat,
      (∀ i ∈ l, location_name_exists db (compartment_name (i + 1)) = true) →
      l.foldl (fun d i => insert_or_ignore_location d (compartment_name (i + 1))
        (compartment_desc (i + 1))) db = db := by
  intro l
  induction l with
  | nil => intro _; rfl
  | cons a l ih =>
    intro h
    have ha := h a (List.mem_cons_self a l)
    simp only [List.foldl_cons, insert_or_ignore_location_of_exists db _ _ ha]
    exact ih fun i hi => h i (List.mem_cons_of_mem a hi)

/-- Seeding a database that already holds Compartment 1..m (for every i up
to m) changes nothing. -/
theorem ensure_default_locations_noop (db : DB) (m : Nat)
    (h : ∀ i ∈ List.range m, location_name_exists db (compartment_name (i + 1)) = true) :
    ensure_default_locations db m = db :=
  seed_fold_noop db (List.range m) h

/-- Re-seeding with the same or a smaller bound is the identity. -/
theorem ensure_default_locations_idem (db : DB) (m n : Nat) (h : m ≤ n) :
    ensure_default_locations (ensure_default_locations db n) m =
      ensure_default_locations db n := by
  apply ensure_default_locations_noop
  intro i hi
  have hm := List.mem_range.mp hi
  exact ensure_default_locations_names db (i + 1) (by omega) n (by omega)

/-! Helper lemmas about the CSV import: what INSERT OR IGNORE under the
(title, author) unique index guarantees, and how the row loop composes. -/

/-- After importing a row, its stripped (title, author) pair exists. -/
theorem import_row_self (db : DB) (r : String × String × String × String) :
    book_title_author_exists (import_row db r) (strip r.1) (strip r.2.1) = true := by
  unfold import_row
  dsimp only
  split
  · assumption
  · simp [book_title_author_exists]

/-- Importing a row never removes an existing (title, author) pair. -/
theorem import_row_mono (db : DB) (r : String × String × String × String) (t a : String)
    (h : book_title_author_exists db t a = true) :
    book_title_author_exists (import_row db r) t a = true := by
  unfold import_row
  dsimp only
  split
  · exact h
  · simp [book_title_author_exists] at h
    simp [book_title_author_exists, h]

/-- Importing a row whose stripped (title, author) pair is already present
changes nothing at all: the OR IGNORE drops it silently. -/
theorem import_row_of_exists (db : DB) (r : String × String × String × String)
    (h : book_title_author_exists db (strip r.1) (strip r.2.1) = true) :
    import_row db r = db := by
  unfold import_row
  simp [h]

/-- Importing a row leaves the copies table alone. -/
theorem import_row_copies (db : DB) (r : String × String × String × String) :
    (import_row db r).copies = db.copies := by
  unfold import_row
  dsimp only
  split <;> rfl

/-- Importing a row does not change the books_unique_index flag. -/
theorem import_row_flag (db : DB) (r : String × String × String × String) :
    (import_row db r).books_unique_index = db.books_unique_index := by
  unfold import_row
  dsimp only
  split <;> rfl

/-- The row loop never removes an existing (title, author) pair. -/
theorem import_rows_mono (db : DB) (rows : List (String × String × String × String))
    (t a : String) (h : book_title_author_exists db t a = true) :
    book_title_author_exists (import_rows db rows) t a = true := by
  induction rows generalizing db with
  | nil => exact h
  | cons r rows ih =>
    show book_title_author_exists (import_rows (import_row db r) rows) t a = true
    exact ih _ (import_row_mono db r t a h)

/-- After the row loop, every row's stripped (title, author) pair
exists. -/
theorem import_rows_exist (db : DB) (rows : List (String × String × String × String))
    (r : String × String × String × String) (hr : r ∈ rows) :
    book_title_author_exists (import_rows db rows) (strip r.1) (strip r.2.1) = true := by
  induction rows generalizing db with
  | nil => cases hr
  | cons s rows ih =>
    show book_title_author_exists (import_rows (import_row db s) rows) _ _ = true
    rcases List.mem_cons.mp hr with h | h
    · subst h
      exact import_rows_mono _ rows _ _ (import_row_self db r)
    · exact ih _ h

/-- A row loop whose rows all match existing (title, author) pairs is the
identity. -/
theorem import_rows_noop (db : DB) (rows : List (String × String × String × String))
    (h : ∀ r ∈ rows, book_title_author_exists db (strip r.1) (strip r.2.1) = true) :
    import_rows db rows = db := by
  induction rows with
  | nil => rfl
  | cons r rows ih =>
    show import_rows (import_row db r) rows = db
    rw [import_row_of_exists db r (h r (List.mem_cons_self r rows))]
    exact ih fun s hs => h s (List.mem_cons_of_mem r hs)

/-- The row loop leaves the copies table alone. -/
theorem import_rows_copies (db : DB) (rows : List (String × String × String × String)) :
    (import_rows db rows).copies = db.copies := by
  induction rows generalizing db with
  | nil => rfl
  | cons r rows ih =>
    show (import_rows (import_row db r) rows).copies = db.copies
    rw [ih, import_row_copies]

/-- The row loop does not change the books_unique_index flag. -/
theorem import_rows_flag (db : DB) (rows : List (String × String × String × String)) :
    (import_rows db rows).books_unique_index = db.books_unique_index := by
  induction rows generalizing db with
  | nil => rfl
  | cons r rows ih =>
    show (import_rows (import_row db r) rows).books_unique_index = db.books_unique_index
    rw [ih, import_row_flag]

/-- Setting books_unique_index on a database where it is already set is the
identity. -/
theorem set_flag_of_flag (db : DB) (h : db.books_unique_index = true) :
    { db with books_unique_index := true } = db := by
  cases db
  simp_all

/-- A whole import leaves the copies table alone. -/
theorem import_books_copies (db : DB) (rows : List (String × String × String × String)) :
    (import_books db rows).copies = db.copies := by
  unfold import_books
  rw [import_rows_copies]

/-- Helper: mapping a function that fixes every element of a list is the
identity. -/
theorem map_eq_self_of_fixes {α : Type} (l : List α) (f : α → α)
    (h : ∀ a ∈ l, f a = a) : l.map f = l := by
  induction l with
  | nil => rfl
  | cons a l ih =>
    simp only [List.map_cons, h a (List.mem_cons_self a l)]
    rw [ih fun x hx => h x (List.mem_cons_of_mem a hx)]

/-- Each single interaction preserves the all-copies-available invariant:
only Add Copy touches the copies table, and it inserts status available. -/
theorem step_copies_available (db : DB) (op : Op) (h : copies_available db = true) :
    copies_available (step db op) = true := by
  cases op with
  | addBook t a g l =>
    simp only [step]
    unfold add_book
    split
    · exact h
    · split
      · exact h
      · exact h
  | addCopy b acc loc =>
    simp only [step]
    unfold add_copy
    split
    · unfold copies_available at h ⊢
      simp [List.all_append, h]
    · exact h
  | addMember n p e => exact h
  | doIssue b m due d =>
    simp only [step]
    unfold issue
    split
    · exact h
    · exact h
  | doReturn i d => exact h
  | addLoc n d =>
    simp only [step]
    unfold add_location
    split
    · exact h
    · unfold insert_or_ignore_location
      split
      · exact h
      · exact h
  | seedLocations n =>
    simp only [step]
    unfold copies_available at h ⊢
    rw [ensure_default_locations_copies]
    exact h
  | importCsv rows =>
    simp only [step]
    unfold copies_available at h ⊢
    rw [import_books_copies]
    exact h

/-- The all-copies-available invariant is preserved along any foldl of
interactions. -/
theorem foldl_step_copies_available (ops : List Op) :
    ∀ db : DB, copies_available db = true → copies_available (ops.foldl step db) = true := by
  induction ops with
  | nil => intro db h; exact h
  | cons op ops ih => intro db h; exact ih _ (step_copies_available db op h)

set_option maxRecDepth 10000 in
/-- C1 counterexample: the state reached by C1_ops is a reachable state in
which the book Dune has two open circulation entries at once, so the second
Issue against the already-issued title neither failed with CopyNotAvailable
nor refrained from creating a new open entry. -/
theorem C1_counterexample : open_count (run C1_ops) 1 = 2 := by decide

/-- C1: corrected.  The Issue handler runs one unconditional INSERT INTO
transactions with return_date NULL: it never consults existing open entries
and has no CopyNotAvailable outcome, so every Issue of an existing book
adds one more open entry for it, and several open entries per title are
reachable. -/
theorem C1_theorem (db : DB) (b m : Nat) (due : Option String) (d : String)
    (hb : book_id_exists db b = true) :
    open_count (issue db b m due d) b = open_count db b + 1 := by
  unfold issue open_count
  simp [hb, List.filter_append]

set_option maxRecDepth 10000 in
/-- Witness: C1_theorem applied in a reachable state where Dune already has
an open entry. -/
theorem C1_witness :
    open_count (issue (run C1_pre_ops) 1 1 none "2024-01-02") 1 =
      open_count (run C1_pre_ops) 1 + 1 :=
  C1_theorem (run C1_pre_ops) 1 1 none "2024-01-02" (by decide)

set_option maxRecDepth 10000 in
/-- C2 counterexample: after a successful Issue of Dune (its open entry
exists), the status of its copy A1 is still available, not issued: the
handler never touches the copies table. -/
theorem C2_counterexample :
    open_count (run C2_ops) 1 = 1 ∧
    ((run C2_ops).copies.map fun c => c.status) = ["available"] := by
  constructor <;> decide

/-- C2: corrected.  A successful Issue creates exactly one circulation
entry with issue_date the current date and return_date NULL (this half of
the claim holds), but it performs no status flip: the copies table is left
completely unchanged, so no copy row ever moves to status issued. -/
theorem C2_theorem (db : DB) (b m : Nat) (due : Option String) (d : String)
    (hb : book_id_exists db b = true) :
    (issue db b m due d).copies = db.copies ∧
    (issue db b m due d).transactions = db.transactions ++
      [{ id := db.next_txn_id, book_id := b, member_id := m, copy_id := none
         issue_date := d, due_date := due, return_date := none }] := by
  unfold issue
  refine ⟨?_, ?_⟩ <;> simp [hb]

set_option maxRecDepth 10000 in
/-- Witness: C2_theorem applied after adding Dune, its copy A1 and member
Ada. -/
theorem C2_witness :
    (issue (run C2_pre_ops) 1 1 none "2024-01-01").copies = (run C2_pre_ops).copies ∧
    (issue (run C2_pre_ops) 1 1 none "2024-01-01").transactions =
      (run C2_pre_ops).transactions ++
        [{ id := (run C2_pre_ops).next_txn_id, book_id := 1, member_id := 1, copy_id := none
           issue_date := "2024-01-01", due_date := none, return_date := none }] :=
  C2_theorem (run C2_pre_ops) 1 1 none "2024-01-01" (by decide)

set_option maxRecDepth 10000 in
/-- C3 counterexample: adding the titles Dune and dune (equal up to case)
succeeds twice: two book rows are stored and no DuplicateTitle failure
occurs. -/
theorem C3_counterexample :
    ((run C3_ops).books.map fun b => b.title) = ["Dune", "dune"] := by decide

/-- Helper for C3: while the import's unique index does not exist, the Add
Book INSERT with a non-blank title always succeeds and cannot create the
index. -/
theorem add_book_inserts_of_no_index (db : DB) (t a g l : String)
    (h : strip t ≠ "") (hfree : db.books_unique_index = false) :
    (add_book db t a g l).books.length = db.books.length + 1 ∧
    (add_book db t a g l).books_unique_index = false := by
  unfold add_book
  rw [if_neg h, hfree]
  simp [hfree]

/-- C3: corrected.  The Add Book handler performs no duplicate check of its
own and has no DuplicateTitle outcome: while no CSV import has created the
persistent (title, author) unique index, a second add with any non-blank
title - even one equal to an existing title character for character -
inserts a second row; once an import has created that index, a plain add
whose exact stripped (title, author) pair already exists raises an untyped
IntegrityError and the rollback leaves the stored rows unchanged. -/
theorem C3_theorem (db : DB) (t1 a1 g1 l1 t2 a2 g2 l2 : String)
    (h1 : strip t1 ≠ "") (h2 : strip t2 ≠ "") :
    (db.books_unique_index = false →
      (add_book (add_book db t1 a1 g1 l1) t2 a2 g2 l2).books.length = db.books.length + 2) ∧
    (db.books_unique_index = true →
      book_title_author_exists db (strip t2) (strip a2) = true →
      add_book db t2 a2 g2 l2 = db) := by
  constructor
  · intro hfree
    obtain ⟨len1, flag1⟩ := add_book_inserts_of_no_index db t1 a1 g1 l1 h1 hfree
    obtain ⟨len2, _⟩ :=
      add_book_inserts_of_no_index (add_book db t1 a1 g1 l1) t2 a2 g2 l2 h2 flag1
    omega
  · intro hidx hex
    unfold add_book
    rw [if_neg h2, hidx, hex]
    simp

/-- Witness: C3_theorem applied twice - the duplicate add of Dune inserting
a second row in the fresh (index-free) database, and the exact duplicate add
rejected as a no-op once the import has created the index. -/
theorem C3_witness :
    (add_book (add_book init_db "Dune" "Herbert" "SciFi" "") "dune" "Herbert" "SciFi" "").books.length =
      init_db.books.length + 2 ∧
    add_book C3_db "Dune" "Herbert" "SciFi" "" = C3_db :=
  ⟨(C3_theorem init_db "Dune" "Herbert" "SciFi" "" "dune" "Herbert" "SciFi" ""
      (by decide) (by decide)).1 (by decide),
   (C3_theorem C3_db "Dune" "Herbert" "SciFi" "" "Dune" "Herbert" "SciFi" ""
      (by decide) (by decide)).2 (by decide) (by decide)⟩

set_option maxRecDepth 10000 in
/-- C4 counterexample: a second Mark-returned on the same entry does not
fail with AlreadyReturned: it silently overwrites the recorded return date
2024-02-01 with the new current date 2024-03-01. -/
theorem C4_counterexample :
    ((run C4_ops).transactions.map fun t => t.return_date) = [some "2024-03-01"] := by decide

/-- C4: corrected.  Mark-returned is one unguarded UPDATE by id: when no
entry carries the id it is a silent no-op (the stored state is indeed
unchanged, but no UnknownEntry failure is reported), and when the entry
exists its return_date is overwritten with the current date even if it was
already set, so a second Return rewrites the recorded return date instead
of failing with AlreadyReturned. -/
theorem C4_theorem (db : DB) (eid : Nat) (d : String) :
    ((db.transactions.all fun t => t.id != eid) = true → mark_returned db eid d = db) ∧
    ∀ t ∈ db.transactions, t.id = eid →
      { t with return_date := some d } ∈ (mark_returned db eid d).transactions := by
  constructor
  · intro h
    have hfix : ∀ t ∈ db.transactions,
        (if t.id = eid then { t with return_date := some d } else t) = t := by
      intro t ht
      rw [List.all_eq_true] at h
      have h2 := h t ht
      rw [if_neg (by simpa using h2)]
    unfold mark_returned
    rw [map_eq_self_of_fixes db.transactions _ hfix]
  · intro t ht hid
    unfold mark_returned
    have hm := List.mem_map_of_mem
      (fun t : Txn => if t.id = eid then { t with return_date := some d } else t) ht
    dsimp only at hm
    rw [if_pos hid] at hm
    exact hm

set_option maxRecDepth 10000 in
/-- Witness: C4_theorem applied with an id matching no entry: the handler
leaves the state unchanged (silently). -/
theorem C4_witness : mark_returned (run C4_pre_ops) 99 "2024-03-01" = run C4_pre_ops :=
  (C4_theorem (run C4_pre_ops) 99 "2024-03-01").1 (by decide)

set_option maxRecDepth 10000 in
/-- C5 counterexample: with a pre-existing slot compartment 1 (lower case),
seeding n = 1 does not treat it as a match: the comparison is
case-sensitive, so a second row Compartment 1 is inserted alongside it. -/
theorem C5_counterexample :
    ((run C5_ops).locations.map fun l => l.name) = ["compartment 1", "Compartment 1"] := by
  decide

set_option maxRecDepth 100000 in
/-- C5: corrected.  Seeding matches pre-existing slots by exact
(case-sensitive) name, not case-insensitively.  With that correction the
claim holds: after seeding n every name Compartment i with 1 <= i <= n
exists, all pre-existing rows are preserved, re-seeding with the same or a
smaller n changes nothing, and seeding 45 twice from a fresh database
yields exactly 45 location rows. -/
theorem C5_theorem (db : DB) (m n i : Nat) (hmn : m ≤ n) (h1 : 1 ≤ i) (hin : i ≤ n) :
    location_name_exists (ensure_default_locations db n) (compartment_name i) = true ∧
    ensure_default_locations (ensure_default_locations db n) m = ensure_default_locations db n ∧
    (∀ l ∈ db.locations, l ∈ (ensure_default_locations db n).locations) ∧
    (ensure_default_locations (ensure_default_locations init_db 45) 45).locations.length = 45 := by
  refine ⟨ensure_default_locations_names db i h1 n hin,
          ensure_default_locations_idem db m n hmn,
          fun l hl => ensure_default_locations_mem db n l hl, ?_⟩
  rw [ensure_default_locations_idem init_db 45 45 (le_refl 45)]
  decide

/-- Witness: C5_theorem instantiated at the fresh database with m = n = 45
and i = 45. -/
theorem C5_witness :
    location_name_exists (ensure_default_locations init_db 45) (compartment_name 45) = true ∧
    ensure_default_locations (ensure_default_locations init_db 45) 45 =
      ensure_default_locations init_db 45 :=
  ⟨(C5_theorem init_db 45 45 45 (by decide) (by decide) (by decide)).1,
   (C5_theorem init_db 45 45 45 (by decide) (by decide) (by decide)).2.1⟩

set_option maxRecDepth 10000 in
/-- C6 counterexample: importing a row for the existing title Dune leaves
the stored genre and default location untouched (Classic, Compartment 1):
the INSERT OR IGNORE skips the row instead of overwriting its fields, and
the handler computes no updated count at all. -/
theorem C6_counterexample :
    ((run C6_ops).books.map fun b => (b.title, b.genre, b.default_location)) =
      [("Dune", "Classic", "Compartment 1")] := by decide

/-- C6: corrected.  The import matches rows on the exact (title, author)
pair, not case-insensitively on the name alone; a matching row is ignored
outright - first write wins and nothing is overwritten - while only
non-matching rows are inserted, and no (inserted, updated, skipped) counts
are computed.  Re-importing the same input is a no-op, so importing a file
twice still yields the identical final state. -/
theorem C6_theorem (db : DB) (rows : List (String × String × String × String))
    (r : String × String × String × String)
    (hex : book_title_author_exists db (strip r.1) (strip r.2.1) = true) :
    import_books (import_books db rows) rows = import_books db rows ∧
    import_row db r = db := by
  constructor
  · have hflag : (import_books db rows).books_unique_index = true := by
      unfold import_books
      rw [import_rows_flag]
    show import_rows { import_books db rows with books_unique_index := true } rows
        = import_books db rows
    rw [set_flag_of_flag _ hflag]
    apply import_rows_noop
    intro s hs
    exact import_rows_exist { db with books_unique_index := true } rows s hs
  · exact import_row_of_exists db r hex

set_option maxRecDepth 10000 in
/-- Witness: C6_theorem applied to the row for the already-present Dune. -/
theorem C6_witness :
    import_books (import_books C6_db [C6_row]) [C6_row] = import_books C6_db [C6_row] ∧
    import_row C6_db C6_row = C6_db :=
  C6_theorem C6_db [C6_row] C6_row (by decide)

set_option maxRecDepth 10000 in
/-- C8 counterexample: the name shelf a collides case-insensitively with
the existing Shelf A, yet the add does not fail with DuplicateLocation: a
second row is inserted. -/
theorem C8_counterexample :
    ((run C8_ops).locations.map fun l => l.name) = ["Shelf A", "shelf a"] := by decide

/-- C8: corrected.  Add Location has no DuplicateLocation failure and its
collision test is exact (case-sensitive), via INSERT OR IGNORE under
UNIQUE(name): an exact duplicate of an existing name is dropped silently
with no error, while any new exact name - including one differing from an
existing name only in case - is inserted. -/
theorem C8_theorem (db : DB) (name desc : String) (hname : strip name ≠ "") :
    (location_name_exists db (strip name) = true → add_location db name desc = db) ∧
    (location_name_exists db (strip name) = false →
      ((add_location db name desc).locations.map fun l => l.name) =
        (db.locations.map fun l => l.name) ++ [strip name]) := by
  constructor
  · intro h
    unfold add_location
    rw [if_neg hname]
    exact insert_or_ignore_location_of_exists db _ _ h
  · intro h
    unfold add_location
    rw [if_neg hname]
    unfold insert_or_ignore_location
    simp [h]

set_option maxRecDepth 10000 in
/-- Witness: C8_theorem applied to an exact duplicate (silent no-op) and to
a case-variant name (inserted). -/
theorem C8_witness :
    add_location C8_db "Shelf A" "again" = C8_db ∧
    ((add_location C8_db "shelf a" "second").locations.map fun l => l.name) =
      (C8_db.locations.map fun l => l.name) ++ [strip "shelf a"] :=
  ⟨(C8_theorem C8_db "Shelf A" "again" (by decide)).1 (by decide),
   (C8_theorem C8_db "shelf a" "second" (by decide)).2 (by decide)⟩

/-- C9: confirmed.  The Mark-returned UPDATE filters on WHERE id = ?: in
any state, including one in which a title has several open entries at once,
it sets return_date on exactly the row carrying the given id and reproduces
every other transaction row unchanged, open siblings included. -/
theorem C9_theorem (db : DB) (eid : Nat) (d : String) :
    (mark_returned db eid d).transactions.length = db.transactions.length ∧
    ∀ i (h1 : i < db.transactions.length)
      (h2 : i < (mark_returned db eid d).transactions.length),
      (((db.transactions.get ⟨i, h1⟩).id = eid →
        (mark_returned db eid d).transactions.get ⟨i, h2⟩ =
          { db.transactions.get ⟨i, h1⟩ with return_date := some d }) ∧
       ((db.transactions.get ⟨i, h1⟩).id ≠ eid →
        (mark_returned db eid d).transactions.get ⟨i, h2⟩ =
          db.transactions.get ⟨i, h1⟩)) := by
  constructor
  · simp [mark_returned]
  · intro i h1 h2
    simp only [List.get_eq_getElem, mark_returned, List.getElem_map]
    constructor
    · intro hid
      rw [if_pos hid]
    · intro hid
      rw [if_neg hid]

/-- Witness: C9_theorem applied in the two-open-entries state C9_db,
returning entry 1: entry 1 is closed, its open sibling entry 2 is
reproduced unchanged. -/
theorem C9_witness :
    (mark_returned C9_db 1 "2024-02-01").transactions.get ⟨0, by decide⟩ =
      { C9_db.transactions.get ⟨0, by decide⟩ with return_date := some "2024-02-01" } ∧
    (mark_returned C9_db 1 "2024-02-01").transactions.get ⟨1, by decide⟩ =
      C9_db.transactions.get ⟨1, by decide⟩ :=
  ⟨((C9_theorem C9_db 1 "2024-02-01").2 0 (by decide) (by decide)).1 (by decide),
   ((C9_theorem C9_db 1 "2024-02-01").2 1 (by decide) (by decide)).2 (by decide)⟩

/-- C10: confirmed.  The only handler that writes the copies table is Add
Copy, which inserts status available; Issue, Return, import, seeding and
location adds never touch it.  Hence in every state reachable by any
sequence of interactions from a fresh database, every copy row still has
status available. -/
theorem C10_theorem (ops : List Op) :
    ((run ops).copies.all fun c => c.status == "available") = true :=
  foldl_step_copies_available ops init_db rfl

end KenLib
